import Mathlib

/-!
Shallow embedding of the financial-extraction heuristic of
`backend/src/services/pdf.service.ts` (class `PDFService`, method
`extractInvoiceData`) and of the re-summarize update policy of
`backend/src/services/email.service.ts` (method `reSummarize`).

JavaScript numbers are modelled as rationals.  The loosely typed JSON
payload coming back from the LLM collaborator is modelled by `RawValue`
(a number, a string, or an absent field) and `RawInvoiceItem`.
JavaScript truthiness on those values is made explicit (`rvTruthy`,
`qtyOr1`), and the builtin string operations used by the source
(`trim`, `replace(/,/g,'')`, `includes`, `toLowerCase`, `parseFloat`
on decimal literals) are modelled as executable functions on
character lists.
-/

/-- Holds on the ASCII digits `0`..`9` — the digits consumed by the
decimal-literal model of JavaScript `parseFloat`. -/
def isDigitC (c : Char) : Bool := 48 ≤ c.toNat && c.toNat ≤ 57

/-- Holds on ASCII whitespace (space, tab, LF, CR): the characters
stripped by `String.prototype.trim` on the inputs in scope. -/
def isWsC (c : Char) : Bool :=
  c.toNat = 32 || c.toNat = 9 || c.toNat = 10 || c.toNat = 13

/-- Drop whitespace from both ends of a character list, modelling
JavaScript `.trim()`. -/
def trimChars (cs : List Char) : List Char :=
  ((cs.dropWhile isWsC).reverse.dropWhile isWsC).reverse

/-- Remove every comma, modelling `value.replace(/,/g, '')`
(pdf.service.ts line 249). -/
def stripCommas (cs : List Char) : List Char := cs.filter (fun c => c != ',')

/-- Numeric value of a digit string, most significant digit first. -/
def natOfDigits (ds : List Char) : Nat :=
  ds.foldl (fun a c => 10 * a + (c.toNat - 48)) 0

/-- Splits a leading sign character off a character list: a leading
`-` gives a negative magnitude, a leading `+` is consumed, anything
else is left in place. -/
def splitSign (cs : List Char) : Bool × List Char :=
  match cs with
  | [] => (false, [])
  | c :: rest =>
      if c = '-' then (true, rest)
      else if c = '+' then (false, rest)
      else (false, c :: rest)

/-- Fraction digits after the integer part: a leading `.` is consumed
and the digits after it are taken; anything else gives no fraction. -/
def fracPart (rest : List Char) : List Char :=
  match rest with
  | '.' :: r => r.takeWhile isDigitC
  | _ => []

/-- Model of JavaScript `parseFloat` restricted to plain decimal
literals: optional sign, integer digits, optional `.` and fraction
digits; trailing garbage is ignored; `none` stands for `NaN`.
(Exponent forms such as `1e3` are outside the inputs this service
feeds to `parseFloat` and are not modelled.) -/
def parseDecimal (cs : List Char) : Option ℚ :=
  let signed := splitSign cs
  let intDs := signed.2.takeWhile isDigitC
  let fracDs := fracPart (signed.2.dropWhile isDigitC)
  if intDs.isEmpty && fracDs.isEmpty then none
  else
    let mag : ℚ :=
      (natOfDigits intDs : ℚ) + (natOfDigits fracDs : ℚ) / ((10 : ℚ) ^ fracDs.length)
    some (if signed.1 then -mag else mag)

/-- A loosely typed value of the collaborator's JSON payload:
a number, a string, or an absent (`undefined`) field. -/
inductive RawValue where
  | num (q : ℚ)
  | str (s : String)
  | undef
deriving DecidableEq, Repr

/-- Model of `parseAmount` (pdf.service.ts lines 245-254): a number is returned
as is; a string has its commas removed and is trimmed, then parsed as a
decimal, with an unparseable string giving 0; an absent value gives 0. -/
def parseAmount : RawValue → ℚ
  | .num q => q
  | .str s =>
      match parseDecimal (trimChars (stripCommas s.data)) with
      | some q => q
      | none => 0
  | .undef => 0

/-- JavaScript truthiness of a `RawValue`: the number 0, the empty
string and `undefined` are falsy; everything else is truthy. -/
def rvTruthy : RawValue → Bool
  | .num q => q != 0
  | .str s => s != ""
  | .undef => false

/-- JavaScript `a || b` on two raw values. -/
def rvOr (a b : RawValue) : RawValue := if rvTruthy a then a else b

/-- One raw item of the collaborator's `items` array.  The source casts
the parsed JSON to `InvoiceItem` without validation, so `price` and
`total` may be numbers, strings or absent, and `quantity` may be
absent. -/
structure RawInvoiceItem where
  item : String
  price : RawValue
  quantity : Option ℚ
  total : RawValue
deriving DecidableEq, Repr

/-- A cleaned line item as produced by the normalizer
(pdf.service.ts lines 260-270). -/
structure InvoiceItem where
  item : String
  price : ℚ
  quantity : ℚ
  total : ℚ
deriving DecidableEq, Repr

/-- JavaScript `item.quantity || 1`: an absent or zero quantity becomes
1; any other value (negative included) is kept. -/
def qtyOr1 : Option ℚ → ℚ
  | none => 1
  | some q => if q = 0 then 1 else q

/-- JavaScript `s.trim()` as a `String` function. -/
def jsTrim (s : String) : String := ⟨trimChars s.data⟩

/-- The filter of the normalizer (pdf.service.ts lines 257-260):
`item.item && item.item.trim() && (item.price || item.total)`. -/
def keepItem (r : RawInvoiceItem) : Bool :=
  r.item != "" && jsTrim r.item != "" && rvTruthy (rvOr r.price r.total)

/-- The map of the normalizer (pdf.service.ts lines 260-270):
`price = parseAmount(item.price || item.total)`,
`total = parseAmount(item.total) || price * (item.quantity || 1)`,
trimmed label, `quantity = item.quantity || 1`. -/
def cleanItem (r : RawInvoiceItem) : InvoiceItem :=
  let price := parseAmount (rvOr r.price r.total)
  let t := parseAmount r.total
  { item := jsTrim r.item
    price := price
    quantity := qtyOr1 r.quantity
    total := if t = 0 then price * qtyOr1 r.quantity else t }

/-- Model of `cleanedItems` (pdf.service.ts lines 257-270): filter then map. -/
def cleanItems (rs : List RawInvoiceItem) : List InvoiceItem :=
  (rs.filter keepItem).map cleanItem

/-- ASCII lower-casing of one character, modelling JavaScript
`toLowerCase` on the ASCII inputs in scope. -/
def lowerChar (c : Char) : Char :=
  if 65 ≤ c.toNat ∧ c.toNat ≤ 90 then Char.ofNat (c.toNat + 32) else c

/-- ASCII upper-casing of one character, modelling JavaScript
`toUpperCase` on the ASCII inputs in scope. -/
def upperChar (c : Char) : Char :=
  if 97 ≤ c.toNat ∧ c.toNat ≤ 122 then Char.ofNat (c.toNat - 32) else c

/-- JavaScript `s.toLowerCase()` as a `String` function. -/
def jsToLower (s : String) : String := ⟨s.data.map lowerChar⟩

/-- JavaScript `s.toUpperCase()` as a `String` function. -/
def jsToUpper (s : String) : String := ⟨s.data.map upperChar⟩

/-- JavaScript `s.includes(pat)`: `pat` occurs as a contiguous
substring of `s`. -/
def strIncludes (s pat : String) : Bool :=
  (List.range (s.data.length + 1)).any (fun i => pat.data.isPrefixOf (s.data.drop i))

/-- Contents of `FINANCIAL_DOCUMENT_KEYWORDS` (pdf.service.ts lines 49-75). -/
def financialDocumentKeywords : List String :=
  ["invoice", "payment", "amount", "total", "due", "bill", "$", "USD",
   "EUR", "RS.", "INR", "item", "quantity", "price", "earnings",
   "deductions", "salary", "payslip", "basic", "hra", "allowance",
   "tax", "net", "payable", "gross"]

/-- The keyword screen of the eligibility gate (pdf.service.ts lines
113-116): some keyword occurs, case-insensitively, in the content. -/
def hasFinancialKeyword (content : String) : Bool :=
  financialDocumentKeywords.any (fun k => strIncludes (jsToLower content) (jsToLower k))

/-- The early-return gate of `extractInvoiceData` (pdf.service.ts lines
104-121).  `fromPdfAttachment` is true when a PDF buffer was supplied
and its text extraction succeeded; `none` models `return null` (the
same value on both failure paths), `some ()` models proceeding to the
extraction call. -/
def eligibilityGate (contentToExtract : String) (fromPdfAttachment : Bool) : Option Unit :=
  if fromPdfAttachment then
    if contentToExtract.length < 50 then none else some ()
  else
    if hasFinancialKeyword contentToExtract then some () else none

/-- Model of `itemNames` (pdf.service.ts lines 277, 302): the lowercased labels
joined with single spaces. -/
def itemNamesJoined (items : List InvoiceItem) : String :=
  String.intercalate " " (items.map (fun it => jsToLower it.item))

/-- The payslip test of the zero-total branch (pdf.service.ts lines
278-281). -/
def isPayslipZeroBranch (items : List InvoiceItem) : Bool :=
  let s := itemNamesJoined items
  strIncludes s "basic" || strIncludes s "hra" || strIncludes s "earnings" ||
  strIncludes s "deductions" || strIncludes s "allowance" ||
  strIncludes s "professional tax" || strIncludes s "pf" ||
  strIncludes s "provident fund"

/-- The payslip test of the non-zero-total branch (pdf.service.ts line
303): only `basic` and `hra` are checked there. -/
def isPayslipNonzeroBranch (items : List InvoiceItem) : Bool :=
  let s := itemNamesJoined items
  strIncludes s "basic" || strIncludes s "hra"

/-- Contents of `deductionKeywords` of the zero-total branch (pdf.service.ts line
286): six keywords, `leave` included. -/
def deductionKeywordsZero : List String :=
  ["tax", "pf", "deduction", "professional", "provident", "leave"]

/-- Contents of `deductionKeywords` of the non-zero-total branch (pdf.service.ts
line 307): five keywords, `leave` absent. -/
def deductionKeywordsNonzero : List String :=
  ["tax", "pf", "deduction", "professional", "provident"]

/-- An item is deduction-like for a keyword set when its lowercased
label contains some keyword. -/
def isDeductionLike (kws : List String) (it : InvoiceItem) : Bool :=
  kws.any (fun k => strIncludes (jsToLower it.item) k)

/-- Model of `reduce((sum, item) => sum + (item.total || 0), 0)`. -/
def sumTotals (items : List InvoiceItem) : ℚ :=
  items.foldl (fun s it => s + it.total) 0

/-- Computes `earnings - deductions` for a given deduction-keyword set
(pdf.service.ts lines 287-294 and 308-314). -/
def payslipExpected (kws : List String) (items : List InvoiceItem) : ℚ :=
  sumTotals (items.filter (fun it => !isDeductionLike kws it)) -
    sumTotals (items.filter (fun it => isDeductionLike kws it))

/-- The total-reconciliation block of `extractInvoiceData`
(pdf.service.ts lines 272-327), as a function of the cleaned items and
the collaborator's raw `total` field. -/
def computeFinalTotal (items : List InvoiceItem) (rawTotal : RawValue) : ℚ :=
  let finalTotal := parseAmount rawTotal
  if finalTotal = 0 ∧ items ≠ [] then
    if isPayslipZeroBranch items then payslipExpected deductionKeywordsZero items
    else sumTotals items
  else if finalTotal > 0 then
    if isPayslipNonzeroBranch items then
      let expectedTotal := payslipExpected deductionKeywordsNonzero items
      if |finalTotal - expectedTotal| > 100 then expectedTotal else finalTotal
    else
      let sumOfItems := sumTotals items
      let tolerance := sumOfItems * (1 / 100)
      if |finalTotal - sumOfItems| > tolerance ∧ sumOfItems > 0 then sumOfItems
      else finalTotal
  else finalTotal

/-- The currency step (pdf.service.ts lines 329-340).  `stated` is the
collaborator's `currency` field (`none` when absent); `content` is the
full source text that was analysed. -/
def inferCurrency (stated : Option String) (content : String) : String :=
  let currency := match stated with
    | none => "USD"
    | some c => if c = "" then "USD" else c
  if currency = "USD" then
    let up := jsToUpper content
    if strIncludes up "RS." || strIncludes up "INR" || strIncludes up "RUPEES" then "INR"
    else if strIncludes up "EUR" || strIncludes up "€" then "EUR"
    else if strIncludes up "GBP" || strIncludes up "£" then "GBP"
    else "USD"
  else currency

/-- Shape of `InvoiceData` (pdf.service.ts lines 43-47), the cleaned result. -/
structure InvoiceData where
  items : List InvoiceItem
  total : ℚ
  currency : String
deriving DecidableEq, Repr

/-- The `invoiceData` decision of `reSummarize` (email.service.ts lines
170-178): start from the stored value; when the new category is
`Invoice` and nothing is stored, run a fresh extraction (its result is
the `freshExtraction` parameter); when the new category is not
`Invoice`, clear to null; otherwise the stored value is kept. -/
def reSummarizeInvoiceData (stored : Option InvoiceData) (newCategory : String)
    (freshExtraction : Option InvoiceData) : Option InvoiceData :=
  if newCategory = "Invoice" then
    match stored with
    | none => freshExtraction
    | some d => some d
  else none

/-- Modelled from the spec (section 4.5 as quoted by the claim): the
grand total the claim predicts for a payslip-flavor candidate with a
non-zero stated total, using the six-keyword deduction set (with
`leave`). -/
def payslipClaimTotal (items : List InvoiceItem) (stated : ℚ) : ℚ :=
  let expected := payslipExpected deductionKeywordsZero items
  if |stated - expected| > 100 then expected else stated

/-- Modelled from the spec (section 4.5 as quoted by the claim): the
grand total the claim predicts for a Generic-flavor candidate with a
non-zero stated total. -/
def genericClaimTotal (items : List InvoiceItem) (stated : ℚ) : ℚ :=
  let sumOfItems := sumTotals items
  if sumOfItems > 0 ∧ |stated - sumOfItems| > sumOfItems * (1 / 100) then sumOfItems
  else stated

/-! ### Helper lemmas -/

theorem dropWhile_eq_self_of_all_false (p : Char → Bool) (l : List Char)
    (h : ∀ c ∈ l, p c = false) : l.dropWhile p = l := by
  cases l with
  | nil => rfl
  | cons c t =>
      exact List.dropWhile_cons_of_neg (by simp [h c (List.mem_cons_self c t)])

theorem takeWhile_eq_self_of_all_true (p : Char → Bool) (l : List Char)
    (h : ∀ c ∈ l, p c = true) : l.takeWhile p = l := by
  induction l with
  | nil => rfl
  | cons c t ih =>
      rw [List.takeWhile_cons_of_pos (h c (List.mem_cons_self c t))]
      rw [ih (fun x hx => h x (List.mem_cons_of_mem c hx))]

theorem dropWhile_eq_nil_of_all_true (p : Char → Bool) (l : List Char)
    (h : ∀ c ∈ l, p c = true) : l.dropWhile p = [] := by
  induction l with
  | nil => rfl
  | cons c t ih =>
      rw [List.dropWhile_cons_of_pos (h c (List.mem_cons_self c t))]
      exact ih (fun x hx => h x (List.mem_cons_of_mem c hx))

theorem isWsC_eq_false_of_isDigitC {c : Char} (h : isDigitC c = true) :
    isWsC c = false := by
  simp only [isDigitC, Bool.and_eq_true, decide_eq_true_eq] at h
  simp only [isWsC, Bool.or_eq_false_iff, decide_eq_false_iff_not]
  omega

theorem trimChars_eq_self_of_digits (l : List Char)
    (h : ∀ c ∈ l, isDigitC c = true) : trimChars l = l := by
  unfold trimChars
  rw [dropWhile_eq_self_of_all_false _ _ (fun c hc => isWsC_eq_false_of_isDigitC (h c hc))]
  rw [dropWhile_eq_self_of_all_false _ _
    (fun c hc => isWsC_eq_false_of_isDigitC (h c (List.mem_reverse.mp hc)))]
  exact List.reverse_reverse l

theorem splitSign_digit_head (c : Char) (t : List Char) (hc : isDigitC c = true) :
    splitSign (c :: t) = (false, c :: t) := by
  have h1 : c ≠ '-' := fun e => by rw [e] at hc; exact absurd hc (by decide)
  have h2 : c ≠ '+' := fun e => by rw [e] at hc; exact absurd hc (by decide)
  simp [splitSign, h1, h2]

theorem parseDecimal_digits (l : List Char) (hne : l ≠ [])
    (h : ∀ c ∈ l, isDigitC c = true) :
    parseDecimal l = some (natOfDigits l : ℚ) := by
  obtain ⟨c, t, rfl⟩ := List.exists_cons_of_ne_nil hne
  unfold parseDecimal
  rw [splitSign_digit_head c t (h c (List.mem_cons_self c t))]
  simp only [takeWhile_eq_self_of_all_true _ _ h, dropWhile_eq_nil_of_all_true _ _ h]
  simp [fracPart, natOfDigits]

theorem stripCommas_digits : ∀ (cs : List Char),
    (∀ c ∈ cs, isDigitC c = true ∨ c = ',') →
    stripCommas cs = cs.filter isDigitC
  | [], _ => rfl
  | c :: t, hall => by
      have ih := stripCommas_digits t (fun x hx => hall x (List.mem_cons_of_mem c hx))
      rcases hall c (List.mem_cons_self c t) with hd | hcomma
      · have hne : c ≠ ',' := fun e => by rw [e] at hd; exact absurd hd (by decide)
        have hnc : (c != ',') = true := bne_iff_ne.mpr hne
        simp only [stripCommas] at ih ⊢
        simp [List.filter_cons, hnc, hd, ih]
      · subst hcomma
        simp only [stripCommas] at ih ⊢
        simp [List.filter_cons, ih, show isDigitC ',' = false from by decide]

theorem keepItem_eq_label_or_signal (r : RawInvoiceItem) :
    keepItem r = (jsTrim r.item != "" && (rvTruthy r.price || rvTruthy r.total)) := by
  unfold keepItem rvOr
  by_cases hi : r.item = ""
  · rw [hi]
    simp [show jsTrim "" = "" from rfl]
  · have hib : (r.item != "") = true := bne_iff_ne.mpr hi
    cases hp : rvTruthy r.price <;> simp [hib, hp]

/-! ### Claims -/

/-- C9: for every string made of digits and thousands-separator commas
(with at least one digit), `parseAmount` returns the value of its digit
string with the separators removed; and for every string whose cleaned
form is unparseable, `parseAmount` returns 0. -/
theorem C9_parseAmount_strips_commas :
    (∀ s : String, (∀ c ∈ s.data, isDigitC c = true ∨ c = ',') →
      (∃ c ∈ s.data, isDigitC c = true) →
      parseAmount (.str s) = (natOfDigits (s.data.filter isDigitC) : ℚ)) ∧
    (∀ s : String, parseDecimal (trimChars (stripCommas s.data)) = none →
      parseAmount (.str s) = 0) := by
  constructor
  · intro s hall hdig
    obtain ⟨c0, hc0mem, hc0⟩ := hdig
    have hstrip := stripCommas_digits s.data hall
    have hdigs : ∀ c ∈ s.data.filter isDigitC, isDigitC c = true :=
      fun c hc => (List.mem_filter.mp hc).2
    have hne : s.data.filter isDigitC ≠ [] :=
      List.ne_nil_of_mem (List.mem_filter.mpr ⟨hc0mem, hc0⟩)
    simp only [parseAmount]
    rw [hstrip, trimChars_eq_self_of_digits _ hdigs, parseDecimal_digits _ hne hdigs]
  · intro s h
    simp only [parseAmount]
    rw [h]

theorem C9_parseAmount_strips_commas_witness :
    parseAmount (.str "29,167") = 29167 ∧ parseAmount (.str "N/A") = 0 := by
  constructor
  · have h := C9_parseAmount_strips_commas.1 "29,167" (by decide) (by decide)
    rw [h]; decide
  · exact C9_parseAmount_strips_commas.2 "N/A" (by decide)

/-- C7: for every raw item, when the provided `total` parses to zero
(absent, unparseable, or zero) the cleaned item's `total` is its
`price` times its `quantity`; when it parses to a non-zero value that
value is used verbatim. -/
theorem C7_lineTotal_fallback (r : RawInvoiceItem) :
    (parseAmount r.total = 0 →
      (cleanItem r).total = (cleanItem r).price * (cleanItem r).quantity) ∧
    (parseAmount r.total ≠ 0 → (cleanItem r).total = parseAmount r.total) := by
  constructor <;> intro h <;> simp [cleanItem, h]

theorem C7_lineTotal_fallback_witness :
    (cleanItem ⟨"Widget", .num 5, some 3, .undef⟩).total = 15 := by
  have h := (C7_lineTotal_fallback ⟨"Widget", .num 5, some 3, .undef⟩).1 rfl
  rw [h]
  rw [show (cleanItem ⟨"Widget", .num 5, some 3, .undef⟩).price = 5 from by decide]
  rw [show (cleanItem ⟨"Widget", .num 5, some 3, .undef⟩).quantity = 3 from by decide]
  norm_num

/-- C6 counterexample: a raw item with a negative quantity keeps that
negative quantity; the normalizer does not replace it with 1. -/
theorem C6_counterexample :
    (cleanItem ⟨"A", .num 5, some (-2), .undef⟩).quantity = -2 ∧
    ((-2 : ℚ)) ≠ 1 := by decide

/-- C6 amended: a missing or zero quantity becomes 1; any non-zero
quantity (negative values included) is kept verbatim. -/
theorem C6_quantity_default (r : RawInvoiceItem) :
    ((r.quantity = none ∨ r.quantity = some 0) → (cleanItem r).quantity = 1) ∧
    (∀ q : ℚ, r.quantity = some q → q ≠ 0 → (cleanItem r).quantity = q) := by
  constructor
  · rintro (h | h) <;> simp [cleanItem, qtyOr1, h]
  · intro q hq hq0
    simp [cleanItem, qtyOr1, hq, hq0]

theorem C6_quantity_default_witness :
    (cleanItem ⟨"A", .num 5, none, .undef⟩).quantity = 1 :=
  (C6_quantity_default ⟨"A", .num 5, none, .undef⟩).1 (Or.inl rfl)

/-- C5 counterexample: a raw item whose `total` is a non-numeric
string is kept by the filter even though both its parsed amounts are
zero, so exclusion is not governed by the parsed values. -/
theorem C5_counterexample :
    cleanItems [⟨"Fee", .undef, none, .str "N/A"⟩] = [⟨"Fee", 0, 1, 0⟩] ∧
    parseAmount (rvOr RawValue.undef (.str "N/A")) = 0 ∧
    (cleanItem ⟨"Fee", .undef, none, .str "N/A"⟩).total = 0 ∧
    ([(⟨"Fee", 0, 1, 0⟩ : InvoiceItem)] : List InvoiceItem) ≠ [] := by
  have hkeep : keepItem ⟨"Fee", .undef, none, .str "N/A"⟩ = true := by decide
  have hp : parseAmount (rvOr RawValue.undef (.str "N/A")) = 0 := by decide
  have ht : parseAmount (RawValue.str "N/A") = 0 := by decide
  have hclean : cleanItem ⟨"Fee", .undef, none, .str "N/A"⟩ = ⟨"Fee", 0, 1, 0⟩ := by
    simp [cleanItem, hp, ht, qtyOr1, show jsTrim "Fee" = "Fee" from by decide]
  refine ⟨?_, hp, ?_, by simp⟩
  · simp [cleanItems, List.filter, hkeep, hclean]
  · rw [hclean]

/-- C5 amended: an item is excluded exactly when its trimmed label is
empty or both its raw `price` and raw `total` are JavaScript-falsy
(absent, the number 0, or the empty string); kept items are cleaned in
input order. -/
theorem C5_filter_by_raw_truthiness (rs : List RawInvoiceItem) :
    cleanItems rs =
      (rs.filter (fun r => jsTrim r.item != "" &&
        (rvTruthy r.price || rvTruthy r.total))).map cleanItem := by
  unfold cleanItems
  rw [List.filter_congr (fun r _ => keepItem_eq_label_or_signal r)]

/-- C1: when the collaborator's stated total parses to zero, the item
list is non-empty, and the labels indicate a payslip, the reconciled
grand total is the sum of line totals over earning-like items minus
the sum over deduction-like items, where a label is deduction-like
when it contains one of tax, pf, deduction, professional, provident,
leave. -/
theorem C1_payslip_zero_total_reconciliation (items : List InvoiceItem) (rawTotal : RawValue)
    (hzero : parseAmount rawTotal = 0) (hne : items ≠ [])
    (hps : isPayslipZeroBranch items = true) :
    computeFinalTotal items rawTotal =
      sumTotals (items.filter (fun it => !isDeductionLike deductionKeywordsZero it)) -
        sumTotals (items.filter (fun it => isDeductionLike deductionKeywordsZero it)) := by
  simp [computeFinalTotal, hzero, hne, hps, payslipExpected]

theorem C1_payslip_zero_total_reconciliation_witness :
    computeFinalTotal
      [⟨"Basic", 30000, 1, 30000⟩, ⟨"HRA", 10000, 1, 10000⟩,
       ⟨"Professional Tax", 2000, 1, 2000⟩, ⟨"PF", 1800, 1, 1800⟩] (.num 0) = 36200 := by
  have h := C1_payslip_zero_total_reconciliation
    [⟨"Basic", 30000, 1, 30000⟩, ⟨"HRA", 10000, 1, 10000⟩,
     ⟨"Professional Tax", 2000, 1, 2000⟩, ⟨"PF", 1800, 1, 1800⟩] (.num 0)
    rfl (by simp) (by decide)
  rw [h]
  have e1 : isDeductionLike deductionKeywordsZero ⟨"Basic", 30000, 1, 30000⟩ = false := by decide
  have e2 : isDeductionLike deductionKeywordsZero ⟨"HRA", 10000, 1, 10000⟩ = false := by decide
  have e3 : isDeductionLike deductionKeywordsZero ⟨"Professional Tax", 2000, 1, 2000⟩ = true := by
    decide
  have e4 : isDeductionLike deductionKeywordsZero ⟨"PF", 1800, 1, 1800⟩ = true := by decide
  simp [List.filter, e1, e2, e3, e4, sumTotals, List.foldl]
  norm_num

/-- C2 counterexample: in the non-zero-total payslip branch the code
uses a five-keyword deduction set without `leave`, so an item labelled
`Leave` counts as an earning there, and a negative parsed stated total
bypasses reconciliation entirely; both contradict the claim, whose
predicted values are computed by `payslipClaimTotal`. -/
theorem C2_counterexample :
    computeFinalTotal [⟨"Basic", 1000, 1, 1000⟩, ⟨"Leave", 500, 1, 500⟩] (.num 100) = 1500 ∧
    payslipClaimTotal [⟨"Basic", 1000, 1, 1000⟩, ⟨"Leave", 500, 1, 500⟩] 100 = 500 ∧
    ((1500 : ℚ) ≠ 500) ∧
    computeFinalTotal [⟨"Basic", 1000, 1, 1000⟩] (.num (-50)) = -50 ∧
    payslipClaimTotal [⟨"Basic", 1000, 1, 1000⟩] (-50) = 1000 ∧
    ((-50 : ℚ) ≠ 1000) := by
  have hb : isPayslipNonzeroBranch [⟨"Basic", 1000, 1, 1000⟩, ⟨"Leave", 500, 1, 500⟩] = true := by
    decide
  have d1 : isDeductionLike deductionKeywordsNonzero ⟨"Basic", 1000, 1, 1000⟩ = false := by decide
  have d2 : isDeductionLike deductionKeywordsNonzero ⟨"Leave", 500, 1, 500⟩ = false := by decide
  have z1 : isDeductionLike deductionKeywordsZero ⟨"Basic", 1000, 1, 1000⟩ = false := by decide
  have z2 : isDeductionLike deductionKeywordsZero ⟨"Leave", 500, 1, 500⟩ = true := by decide
  have hexp5 :
      payslipExpected deductionKeywordsNonzero
        [⟨"Basic", 1000, 1, 1000⟩, ⟨"Leave", 500, 1, 500⟩] = 1500 := by
    simp [payslipExpected, List.filter, d1, d2, sumTotals, List.foldl]
    norm_num
  have hexp6 :
      payslipExpected deductionKeywordsZero
        [⟨"Basic", 1000, 1, 1000⟩, ⟨"Leave", 500, 1, 500⟩] = 500 := by
    simp [payslipExpected, List.filter, z1, z2, sumTotals, List.foldl]
    norm_num
  have z3 : isDeductionLike deductionKeywordsZero ⟨"Basic", 1000, 1, 1000⟩ = false := z1
  have hexp1 :
      payslipExpected deductionKeywordsZero [⟨"Basic", 1000, 1, 1000⟩] = 1000 := by
    simp [payslipExpected, List.filter, z3, sumTotals, List.foldl]
  refine ⟨?_, ?_, by norm_num, ?_, ?_, by norm_num⟩
  · norm_num [computeFinalTotal, parseAmount, hb, hexp5]
  · norm_num [payslipClaimTotal, hexp6]
  · norm_num [computeFinalTotal, parseAmount]
  · norm_num [payslipClaimTotal, hexp1]

/-- C2 amended: for a candidate whose labels pass the non-zero-branch
payslip test and whose stated total parses to a positive value, the
grand total is the expected value computed with the five-keyword
deduction set (tax, pf, deduction, professional, provident — without
`leave`) when the stated total is more than 100 away from it, and the
stated total otherwise. -/
theorem C2_payslip_positive_reconciliation (items : List InvoiceItem) (rawTotal : RawValue)
    (hpos : 0 < parseAmount rawTotal) (hps : isPayslipNonzeroBranch items = true) :
    computeFinalTotal items rawTotal =
      if |parseAmount rawTotal - payslipExpected deductionKeywordsNonzero items| > 100
      then payslipExpected deductionKeywordsNonzero items
      else parseAmount rawTotal := by
  have hx : parseAmount rawTotal ≠ 0 := ne_of_gt hpos
  simp [computeFinalTotal, hx, hpos, hps]

theorem C2_payslip_positive_reconciliation_witness :
    computeFinalTotal
      [⟨"Basic", 30000, 1, 30000⟩, ⟨"HRA", 10000, 1, 10000⟩,
       ⟨"Professional Tax", 2000, 1, 2000⟩, ⟨"PF", 1800, 1, 1800⟩] (.num 999999) = 36200 := by
  have h := C2_payslip_positive_reconciliation
    [⟨"Basic", 30000, 1, 30000⟩, ⟨"HRA", 10000, 1, 10000⟩,
     ⟨"Professional Tax", 2000, 1, 2000⟩, ⟨"PF", 1800, 1, 1800⟩] (.num 999999)
    (by norm_num [parseAmount]) (by decide)
  rw [h]
  have e1 : isDeductionLike deductionKeywordsNonzero ⟨"Basic", 30000, 1, 30000⟩ = false := by
    decide
  have e2 : isDeductionLike deductionKeywordsNonzero ⟨"HRA", 10000, 1, 10000⟩ = false := by decide
  have e3 : isDeductionLike deductionKeywordsNonzero ⟨"Professional Tax", 2000, 1, 2000⟩ = true := by
    decide
  have e4 : isDeductionLike deductionKeywordsNonzero ⟨"PF", 1800, 1, 1800⟩ = true := by decide
  have hexp :
      payslipExpected deductionKeywordsNonzero
        [⟨"Basic", 30000, 1, 30000⟩, ⟨"HRA", 10000, 1, 10000⟩,
         ⟨"Professional Tax", 2000, 1, 2000⟩, ⟨"PF", 1800, 1, 1800⟩] = 36200 := by
    simp [payslipExpected, List.filter, e1, e2, e3, e4, sumTotals, List.foldl]
    norm_num
  rw [hexp]
  norm_num [parseAmount]

/-- C3 counterexample: a negative parsed stated total is non-zero, yet
the Generic reconciliation is skipped entirely (the branch requires a
positive total), so the stated value survives even though it is more
than 1% away from the item sum; the claim's predicted value is
computed by `genericClaimTotal`. -/
theorem C3_counterexample :
    computeFinalTotal [⟨"Widget", 50, 1, 50⟩, ⟨"Gadget", 30, 1, 30⟩] (.num (-999)) = -999 ∧
    genericClaimTotal [⟨"Widget", 50, 1, 50⟩, ⟨"Gadget", 30, 1, 30⟩] (-999) = 80 ∧
    isPayslipNonzeroBranch [⟨"Widget", 50, 1, 50⟩, ⟨"Gadget", 30, 1, 30⟩] = false ∧
    ((-999 : ℚ) ≠ 0) ∧ ((-999 : ℚ) ≠ 80) := by
  have hsum : sumTotals [⟨"Widget", 50, 1, 50⟩, ⟨"Gadget", 30, 1, 30⟩] = 80 := by
    simp [sumTotals, List.foldl]
    norm_num
  refine ⟨?_, ?_, by decide, by norm_num, by norm_num⟩
  · norm_num [computeFinalTotal, parseAmount]
  · norm_num [genericClaimTotal, hsum]

/-- C3 amended: for a Generic-flavor candidate (the non-zero-branch
payslip test fails) whose stated total parses to a positive value, the
grand total is the item sum when that sum is positive and the stated
total is more than 1% of the sum away from it, and the stated total
unchanged otherwise. -/
theorem C3_generic_positive_reconciliation (items : List InvoiceItem) (rawTotal : RawValue)
    (hpos : 0 < parseAmount rawTotal) (hgen : isPayslipNonzeroBranch items = false) :
    computeFinalTotal items rawTotal =
      if |parseAmount rawTotal - sumTotals items| > sumTotals items * (1 / 100) ∧
          0 < sumTotals items
      then sumTotals items else parseAmount rawTotal := by
  have hx : parseAmount rawTotal ≠ 0 := ne_of_gt hpos
  simp [computeFinalTotal, hx, hpos, hgen]

theorem C3_generic_positive_reconciliation_witness :
    computeFinalTotal [⟨"Widget", 50, 1, 50⟩, ⟨"Gadget", 30, 1, 30⟩] (.num 999) = 80 := by
  have h := C3_generic_positive_reconciliation
    [⟨"Widget", 50, 1, 50⟩, ⟨"Gadget", 30, 1, 30⟩] (.num 999)
    (by norm_num [parseAmount]) (by decide)
  rw [h]
  have hsum : sumTotals [⟨"Widget", 50, 1, 50⟩, ⟨"Gadget", 30, 1, 30⟩] = 80 := by
    simp [sumTotals, List.foldl]
    norm_num
  rw [hsum]
  norm_num [parseAmount]

/-- C4 counterexample: an attached document whose extracted text has
length 5 and a plain message body with no financial keyword produce
the very same result value (`null`), so callers cannot distinguish an
unreadable attachment from a non-financial email. -/
theorem C4_counterexample :
    eligibilityGate "abcde" true = none ∧
    eligibilityGate "Lets catch up for coffee tomorrow" false = none ∧
    eligibilityGate "abcde" true =
      eligibilityGate "Lets catch up for coffee tomorrow" false := by decide

/-- C4 amended: an attached document whose extracted text is shorter
than 50 characters makes the extraction return `null`, and a plain
body with no financial keyword also makes it return `null`; the two
outcomes are the same value, distinguishable only in log output, not
by the caller. -/
theorem C4_gate_null_indistinct (s t : String)
    (hs : s.length < 50) (ht : hasFinancialKeyword t = false) :
    eligibilityGate s true = none ∧ eligibilityGate t false = none ∧
    eligibilityGate s true = eligibilityGate t false := by
  simp [eligibilityGate, hs, ht]

theorem C4_gate_null_indistinct_witness :
    eligibilityGate "abcde" true = none ∧
    eligibilityGate "Lets catch up for coffee tomorrow" false = none ∧
    eligibilityGate "abcde" true =
      eligibilityGate "Lets catch up for coffee tomorrow" false :=
  C4_gate_null_indistinct "abcde" "Lets catch up for coffee tomorrow" (by decide) (by decide)

/-- C8 counterexample: a stated currency that is present and not the
generic default is used verbatim even when it is not a 3-letter code
from the known set, so the invariant part of the claim fails. -/
theorem C8_counterexample :
    inferCurrency (some "RUPEES") "anything" = "RUPEES" ∧
    ("RUPEES" ∉ (["USD", "INR", "EUR", "GBP"] : List String)) ∧
    (("RUPEES" : String).length ≠ 3) := by decide

/-- C8 amended: when the stated currency is absent, empty, or the
generic default `USD`, the result is inferred by scanning the source
text and is one of USD, INR, EUR, GBP (USD the fallback); a stated
currency that is present and different from `USD` is returned
verbatim, whatever string it is. -/
theorem C8_currency_policy (stated : Option String) (content : String) :
    ((stated = none ∨ stated = some "" ∨ stated = some "USD") →
      inferCurrency stated content ∈ (["USD", "INR", "EUR", "GBP"] : List String)) ∧
    (∀ c : String, stated = some c → c ≠ "" → c ≠ "USD" →
      inferCurrency stated content = c) := by
  constructor
  · intro h
    rcases h with h | h | h <;> subst h <;>
      simp only [inferCurrency] <;> split_ifs <;> simp_all
  · intro c hc hne hUSD
    subst hc
    simp only [inferCurrency]
    rw [if_neg hne, if_neg hUSD]

theorem C8_currency_policy_witness :
    inferCurrency none "" ∈ (["USD", "INR", "EUR", "GBP"] : List String) :=
  (C8_currency_policy none "").1 (Or.inl rfl)

/-- C10 counterexample: when the new category is `Invoice` and a prior
`invoiceData` value is stored, `reSummarize` keeps the prior value and
ignores the fresh extraction result, so the previous value is not
replaced wholesale. -/
theorem C10_counterexample :
    reSummarizeInvoiceData (some ⟨[], 5, "USD"⟩) "Invoice" (some ⟨[], 7, "EUR"⟩) =
      some ⟨[], 5, "USD"⟩ ∧
    (some (⟨[], 5, "USD"⟩ : InvoiceData) ≠ some (⟨[], 7, "EUR"⟩ : InvoiceData)) := by decide

/-- C10 amended: on re-summarize, a new category other than `Invoice`
clears the stored `invoiceData` to null; category `Invoice` with
nothing stored stores the fresh extraction result; category `Invoice`
with a stored value keeps that stored value unchanged, and no fresh
extraction replaces it. -/
theorem C10_resummarize_policy (stored freshExtraction : Option InvoiceData) (cat : String) :
    (cat ≠ "Invoice" → reSummarizeInvoiceData stored cat freshExtraction = none) ∧
    (cat = "Invoice" → stored = none →
      reSummarizeInvoiceData stored cat freshExtraction = freshExtraction) ∧
    (cat = "Invoice" → ∀ d : InvoiceData, stored = some d →
      reSummarizeInvoiceData stored cat freshExtraction = some d) := by
  refine ⟨fun h => by simp [reSummarizeInvoiceData, h],
    fun h hs => by simp [reSummarizeInvoiceData, h, hs],
    fun h d hs => by simp [reSummarizeInvoiceData, h, hs]⟩

theorem C10_resummarize_policy_witness :
    reSummarizeInvoiceData none "Invoice" (some ⟨[], 7, "EUR"⟩) = some ⟨[], 7, "EUR"⟩ :=
  (C10_resummarize_policy none (some ⟨[], 7, "EUR"⟩) "Invoice").2.1 rfl rfl
